import Mathlib

/-!
Verification development for the roshi Prometheus instrumentation facade
(`instrumentation/prometheus/prometheus.go`).

The facade itself — the `PrometheusInstrumentation` struct of 28 metric
fields (20 counters, 8 histograms), the constructor `New`, and the 28
event methods — is translated directly from the Go source.  The metric
primitives (`Counter`, `Histogram`) and the registry (`Register`) live in
the external Prometheus client library, which is not part of this
repository's source tree; they are modelled from the specification
(spec sections 3, 4.1, 4.2, 4.3).

Numeric conventions of the embedding: the client library accumulates
`float64` values, but every value the facade ever hands it is the exact
image of a machine integer (`float64(n)` for an `int` count, or
`float64(d.Nanoseconds())` for a duration), so metric values are modelled
as exact `Int`s.  A Go `time.Duration` is a 64-bit integer count of
nanoseconds and is modelled as a structure holding an `Int`.
-/

/-- Modelled from the spec: a Counter (spec section 3 / 4.1) is a numeric
accumulator starting at 0; `Increment` adds 1 and `IncrementBy n` adds `n`.
The spec's primary sentence for `IncrementBy` is "adds n"; no clamping is
performed (spec section 9 records that the source clamps nothing). -/
structure Counter where
  value : Int
deriving DecidableEq

/-- Modelled from the spec: `prometheus.NewCounter()` — a fresh counter,
"current value (numeric, starts at 0)" (spec section 3). -/
def NewCounter : Counter := ⟨0⟩

/-- Modelled from the spec: `Counter.Increment` adds 1 (spec section 4.1). -/
def Counter.Increment (c : Counter) : Counter := ⟨c.value + 1⟩

/-- Modelled from the spec: `Counter.IncrementBy n` adds `n` (spec
section 4.1, "Side effect: value += n"). -/
def Counter.IncrementBy (c : Counter) (n : Int) : Counter := ⟨c.value + n⟩

/-- Modelled from the spec: a Histogram (spec section 4.2) records a series
of observed values; bucket counts, total count and running sum are all
derivable from the list of samples, so the samples list is the state.
Bucket boundaries are an implementation decision the spec leaves open and
no claim here touches them. -/
structure Histogram where
  samples : List Int
deriving DecidableEq

/-- Modelled from the spec: `prometheus.NewDefaultHistogram()` — a fresh
histogram with no observations. -/
def NewDefaultHistogram : Histogram := ⟨[]⟩

/-- Modelled from the spec: `Histogram.Add` (named `Add` in the client API
the Go source calls) records one sample (spec section 4.2, `Observe`). -/
def Histogram.Add (h : Histogram) (v : Int) : Histogram := ⟨v :: h.samples⟩

/-- A Go `time.Duration`: a 64-bit integer count of nanoseconds. -/
structure Duration where
  ns : Int
deriving DecidableEq

/-- `time.Duration.Nanoseconds()` returns the duration as an integer
nanosecond count. -/
def Duration.Nanoseconds (d : Duration) : Int := d.ns

/-- `PrometheusInstrumentation` holds metrics for all instrumented methods
(prometheus.go lines 17–46): 20 counters and 8 histograms, one field per
observable event. -/
structure PrometheusInstrumentation where
  insertCallCount             : Counter
  insertRecordCount           : Counter
  insertCallDuration          : Histogram
  insertRecordDuration        : Histogram
  insertQuorumFailureCount    : Counter
  selectCallCount             : Counter
  selectKeysCount             : Counter
  selectSendToCount           : Counter
  selectFirstResponseDuration : Histogram
  selectPartialErrorCount     : Counter
  selectBlockingDuration      : Histogram
  selectOverheadDuration      : Histogram
  selectDuration              : Histogram
  selectSendAllPromotionCount : Counter
  selectRetrievedCount        : Counter
  selectReturnedCount         : Counter
  selectRepairNeededCount     : Counter
  deleteCallCount             : Counter
  deleteRecordCount           : Counter
  deleteCallDuration          : Histogram
  deleteRecordDuration        : Histogram
  deleteQuorumFailureCount    : Counter
  repairCallCount             : Counter
  repairRequestCount          : Counter
  repairDiscardedCount        : Counter
  repairWriteSuccessCount     : Counter
  repairWriteFailureCount     : Counter
  walkKeysCount               : Counter
deriving DecidableEq

/-- The struct literal built at the top of `New` (prometheus.go lines
52–81): every counter fresh at 0, every histogram fresh and empty. -/
def newFacade : PrometheusInstrumentation where
  insertCallCount             := NewCounter
  insertRecordCount           := NewCounter
  insertCallDuration          := NewDefaultHistogram
  insertRecordDuration        := NewDefaultHistogram
  insertQuorumFailureCount    := NewCounter
  selectCallCount             := NewCounter
  selectKeysCount             := NewCounter
  selectSendToCount           := NewCounter
  selectFirstResponseDuration := NewDefaultHistogram
  selectPartialErrorCount     := NewCounter
  selectBlockingDuration      := NewDefaultHistogram
  selectOverheadDuration      := NewDefaultHistogram
  selectDuration              := NewDefaultHistogram
  selectSendAllPromotionCount := NewCounter
  selectRetrievedCount        := NewCounter
  selectReturnedCount         := NewCounter
  selectRepairNeededCount     := NewCounter
  deleteCallCount             := NewCounter
  deleteRecordCount           := NewCounter
  deleteCallDuration          := NewDefaultHistogram
  deleteRecordDuration        := NewDefaultHistogram
  deleteQuorumFailureCount    := NewCounter
  repairCallCount             := NewCounter
  repairRequestCount          := NewCounter
  repairDiscardedCount        := NewCounter
  repairWriteSuccessCount     := NewCounter
  repairWriteFailureCount     := NewCounter
  walkKeysCount               := NewCounter

/-- `InsertCall` (prometheus.go line 261): increments `insertCallCount`.
The Go methods mutate through the metric handle held in the struct field;
the embedding passes the facade state explicitly, so each method returns
the facade with the one touched field updated. -/
def PrometheusInstrumentation.InsertCall (i : PrometheusInstrumentation) : PrometheusInstrumentation :=
  { i with insertCallCount := i.insertCallCount.Increment }

/-- `InsertRecordCount` (line 266): `insertRecordCount.IncrementBy(float64(n))`. -/
def PrometheusInstrumentation.InsertRecordCount (i : PrometheusInstrumentation) (n : Int) : PrometheusInstrumentation :=
  { i with insertRecordCount := i.insertRecordCount.IncrementBy n }

/-- `InsertCallDuration` (line 271): `insertCallDuration.Add(float64(d.Nanoseconds()))`. -/
def PrometheusInstrumentation.InsertCallDuration (i : PrometheusInstrumentation) (d : Duration) : PrometheusInstrumentation :=
  { i with insertCallDuration := i.insertCallDuration.Add d.Nanoseconds }

/-- `InsertRecordDuration` (line 276). -/
def PrometheusInstrumentation.InsertRecordDuration (i : PrometheusInstrumentation) (d : Duration) : PrometheusInstrumentation :=
  { i with insertRecordDuration := i.insertRecordDuration.Add d.Nanoseconds }

/-- `InsertQuorumFailure` (line 281). -/
def PrometheusInstrumentation.InsertQuorumFailure (i : PrometheusInstrumentation) : PrometheusInstrumentation :=
  { i with insertQuorumFailureCount := i.insertQuorumFailureCount.Increment }

/-- `SelectCall` (line 286). -/
def PrometheusInstrumentation.SelectCall (i : PrometheusInstrumentation) : PrometheusInstrumentation :=
  { i with selectCallCount := i.selectCallCount.Increment }

/-- `SelectKeys` (line 291). -/
def PrometheusInstrumentation.SelectKeys (i : PrometheusInstrumentation) (n : Int) : PrometheusInstrumentation :=
  { i with selectKeysCount := i.selectKeysCount.IncrementBy n }

/-- `SelectSendTo` (line 296). -/
def PrometheusInstrumentation.SelectSendTo (i : PrometheusInstrumentation) (n : Int) : PrometheusInstrumentation :=
  { i with selectSendToCount := i.selectSendToCount.IncrementBy n }

/-- `SelectFirstResponseDuration` (line 301). -/
def PrometheusInstrumentation.SelectFirstResponseDuration (i : PrometheusInstrumentation) (d : Duration) : PrometheusInstrumentation :=
  { i with selectFirstResponseDuration := i.selectFirstResponseDuration.Add d.Nanoseconds }

/-- `SelectPartialError` (line 306). -/
def PrometheusInstrumentation.SelectPartialError (i : PrometheusInstrumentation) : PrometheusInstrumentation :=
  { i with selectPartialErrorCount := i.selectPartialErrorCount.Increment }

/-- `SelectBlockingDuration` (line 311). -/
def PrometheusInstrumentation.SelectBlockingDuration (i : PrometheusInstrumentation) (d : Duration) : PrometheusInstrumentation :=
  { i with selectBlockingDuration := i.selectBlockingDuration.Add d.Nanoseconds }

/-- `SelectOverheadDuration` (line 316). -/
def PrometheusInstrumentation.SelectOverheadDuration (i : PrometheusInstrumentation) (d : Duration) : PrometheusInstrumentation :=
  { i with selectOverheadDuration := i.selectOverheadDuration.Add d.Nanoseconds }

/-- `SelectDuration` (line 321). -/
def PrometheusInstrumentation.SelectDuration (i : PrometheusInstrumentation) (d : Duration) : PrometheusInstrumentation :=
  { i with selectDuration := i.selectDuration.Add d.Nanoseconds }

/-- `SelectSendAllPromotion` (line 326). -/
def PrometheusInstrumentation.SelectSendAllPromotion (i : PrometheusInstrumentation) : PrometheusInstrumentation :=
  { i with selectSendAllPromotionCount := i.selectSendAllPromotionCount.Increment }

/-- `SelectRetrieved` (line 331). -/
def PrometheusInstrumentation.SelectRetrieved (i : PrometheusInstrumentation) (n : Int) : PrometheusInstrumentation :=
  { i with selectRetrievedCount := i.selectRetrievedCount.IncrementBy n }

/-- `SelectReturned` (line 336). -/
def PrometheusInstrumentation.SelectReturned (i : PrometheusInstrumentation) (n : Int) : PrometheusInstrumentation :=
  { i with selectReturnedCount := i.selectReturnedCount.IncrementBy n }

/-- `SelectRepairNeeded` (line 341). -/
def PrometheusInstrumentation.SelectRepairNeeded (i : PrometheusInstrumentation) (n : Int) : PrometheusInstrumentation :=
  { i with selectRepairNeededCount := i.selectRepairNeededCount.IncrementBy n }

/-- `DeleteCall` (line 346). -/
def PrometheusInstrumentation.DeleteCall (i : PrometheusInstrumentation) : PrometheusInstrumentation :=
  { i with deleteCallCount := i.deleteCallCount.Increment }

/-- `DeleteRecordCount` (line 351). -/
def PrometheusInstrumentation.DeleteRecordCount (i : PrometheusInstrumentation) (n : Int) : PrometheusInstrumentation :=
  { i with deleteRecordCount := i.deleteRecordCount.IncrementBy n }

/-- `DeleteCallDuration` (line 356). -/
def PrometheusInstrumentation.DeleteCallDuration (i : PrometheusInstrumentation) (d : Duration) : PrometheusInstrumentation :=
  { i with deleteCallDuration := i.deleteCallDuration.Add d.Nanoseconds }

/-- `DeleteRecordDuration` (line 361). -/
def PrometheusInstrumentation.DeleteRecordDuration (i : PrometheusInstrumentation) (d : Duration) : PrometheusInstrumentation :=
  { i with deleteRecordDuration := i.deleteRecordDuration.Add d.Nanoseconds }

/-- `DeleteQuorumFailure` (line 366). -/
def PrometheusInstrumentation.DeleteQuorumFailure (i : PrometheusInstrumentation) : PrometheusInstrumentation :=
  { i with deleteQuorumFailureCount := i.deleteQuorumFailureCount.Increment }

/-- `RepairCall` (line 371). -/
def PrometheusInstrumentation.RepairCall (i : PrometheusInstrumentation) : PrometheusInstrumentation :=
  { i with repairCallCount := i.repairCallCount.Increment }

/-- `RepairRequest` (line 376). -/
def PrometheusInstrumentation.RepairRequest (i : PrometheusInstrumentation) (n : Int) : PrometheusInstrumentation :=
  { i with repairRequestCount := i.repairRequestCount.IncrementBy n }

/-- `RepairDiscarded` (line 381). -/
def PrometheusInstrumentation.RepairDiscarded (i : PrometheusInstrumentation) (n : Int) : PrometheusInstrumentation :=
  { i with repairDiscardedCount := i.repairDiscardedCount.IncrementBy n }

/-- `RepairWriteSuccess` (line 386). -/
def PrometheusInstrumentation.RepairWriteSuccess (i : PrometheusInstrumentation) (n : Int) : PrometheusInstrumentation :=
  { i with repairWriteSuccessCount := i.repairWriteSuccessCount.IncrementBy n }

/-- `RepairWriteFailure` (line 391). -/
def PrometheusInstrumentation.RepairWriteFailure (i : PrometheusInstrumentation) (n : Int) : PrometheusInstrumentation :=
  { i with repairWriteFailureCount := i.repairWriteFailureCount.IncrementBy n }

/-- `WalkKeys` (line 396). -/
def PrometheusInstrumentation.WalkKeys (i : PrometheusInstrumentation) (n : Int) : PrometheusInstrumentation :=
  { i with walkKeysCount := i.walkKeysCount.IncrementBy n }

/-- The kind of a registered metric: counter or histogram. -/
inductive MetricKind
  | counter
  | histogram
deriving DecidableEq

/-- Names for the 20 counter fields of `PrometheusInstrumentation`, in
struct order (prometheus.go lines 17–46). -/
inductive CounterField
  | insertCallCount
  | insertRecordCount
  | insertQuorumFailureCount
  | selectCallCount
  | selectKeysCount
  | selectSendToCount
  | selectPartialErrorCount
  | selectSendAllPromotionCount
  | selectRetrievedCount
  | selectReturnedCount
  | selectRepairNeededCount
  | deleteCallCount
  | deleteRecordCount
  | deleteQuorumFailureCount
  | repairCallCount
  | repairRequestCount
  | repairDiscardedCount
  | repairWriteSuccessCount
  | repairWriteFailureCount
  | walkKeysCount
deriving DecidableEq, Fintype

/-- Names for the 8 histogram fields of `PrometheusInstrumentation`. -/
inductive HistogramField
  | insertCallDuration
  | insertRecordDuration
  | selectFirstResponseDuration
  | selectBlockingDuration
  | selectOverheadDuration
  | selectDuration
  | deleteCallDuration
  | deleteRecordDuration
deriving DecidableEq, Fintype

/-- A reference to one metric object of the facade.  The Go code passes
the pointer stored in the struct field to `Register`; in the state-passing
embedding a field reference plays the role of that pointer identity. -/
inductive MetricRef
  | counter (f : CounterField)
  | histogram (f : HistogramField)
deriving DecidableEq, Fintype

/-- The kind of the metric a reference points to. -/
def MetricRef.kind : MetricRef → MetricKind
  | .counter _ => .counter
  | .histogram _ => .histogram

/-- Read the counter field a `CounterField` names. -/
def readCounter (i : PrometheusInstrumentation) : CounterField → Counter
  | .insertCallCount => i.insertCallCount
  | .insertRecordCount => i.insertRecordCount
  | .insertQuorumFailureCount => i.insertQuorumFailureCount
  | .selectCallCount => i.selectCallCount
  | .selectKeysCount => i.selectKeysCount
  | .selectSendToCount => i.selectSendToCount
  | .selectPartialErrorCount => i.selectPartialErrorCount
  | .selectSendAllPromotionCount => i.selectSendAllPromotionCount
  | .selectRetrievedCount => i.selectRetrievedCount
  | .selectReturnedCount => i.selectReturnedCount
  | .selectRepairNeededCount => i.selectRepairNeededCount
  | .deleteCallCount => i.deleteCallCount
  | .deleteRecordCount => i.deleteRecordCount
  | .deleteQuorumFailureCount => i.deleteQuorumFailureCount
  | .repairCallCount => i.repairCallCount
  | .repairRequestCount => i.repairRequestCount
  | .repairDiscardedCount => i.repairDiscardedCount
  | .repairWriteSuccessCount => i.repairWriteSuccessCount
  | .repairWriteFailureCount => i.repairWriteFailureCount
  | .walkKeysCount => i.walkKeysCount

/-- Read the histogram field a `HistogramField` names. -/
def readHistogram (i : PrometheusInstrumentation) : HistogramField → Histogram
  | .insertCallDuration => i.insertCallDuration
  | .insertRecordDuration => i.insertRecordDuration
  | .selectFirstResponseDuration => i.selectFirstResponseDuration
  | .selectBlockingDuration => i.selectBlockingDuration
  | .selectOverheadDuration => i.selectOverheadDuration
  | .selectDuration => i.selectDuration
  | .deleteCallDuration => i.deleteCallDuration
  | .deleteRecordDuration => i.deleteRecordDuration

/-- One entry of the registry: a registered name, its help text, and the
facade metric object it binds (spec section 3, MetricRegistry). -/
structure RegEntry where
  name : String
  help : String
  ref : MetricRef
deriving DecidableEq

/-- Modelled from the spec: the MetricRegistry (spec section 3 / 4.3) —
a process-wide mapping from unique names to metrics, populated during
facade construction.  Entries are kept in registration order. -/
structure Registry where
  entries : List RegEntry
deriving DecidableEq

/-- The empty registry, before any facade is constructed. -/
def Registry.empty : Registry := ⟨[]⟩

/-- Modelled from the spec: `prometheus.Register(name, docstring, labels,
metric)` — "binds a name to a metric instance. Fails fatally (process
should not start serving) if `name` is already registered" (spec
section 4.3).  The fatal configuration error is an `Except.error`
carrying the colliding name. -/
def Register (r : Registry) (name help : String) (ref : MetricRef) : Except String Registry :=
  if r.entries.any (fun e => e.name == name) then
    Except.error name
  else
    Except.ok ⟨r.entries ++ [⟨name, help, ref⟩]⟩

/-- One line of `New`'s registration sequence: the metric-name suffix, the
help text, and the facade field whose metric object is registered. -/
structure CatEntry where
  suffix : String
  help : String
  ref : MetricRef
deriving DecidableEq

/-- The 28 `prometheus.Register` calls of `New` (prometheus.go lines
83–250), in source order, with the exact name suffixes and help strings. -/
def catalogue : List CatEntry :=
  [⟨"insert_call_count", "How many insert calls have been made.", .counter .insertCallCount⟩,
   ⟨"insert_record_count", "How many records have been inserted.", .counter .insertRecordCount⟩,
   ⟨"insert_call_duration_nanoseconds", "Insert duration per-call.", .histogram .insertCallDuration⟩,
   ⟨"insert_record_duration_nanoseconds", "Insert duration per-record.", .histogram .insertRecordDuration⟩,
   ⟨"insert_quorum_failure_count", "Insert quorum failure count.", .counter .insertQuorumFailureCount⟩,
   ⟨"select_call_count", "How many select calls have been made.", .counter .selectCallCount⟩,
   ⟨"select_keys_count", "How many keys have been selected.", .counter .selectKeysCount⟩,
   ⟨"select_send_to_count", "How many clusters have received select calls.", .counter .selectSendToCount⟩,
   ⟨"select_first_response_duration_nanoseconds", "Select first response duration.", .histogram .selectFirstResponseDuration⟩,
   ⟨"select_partial_error_count", "How many partial errors have occurred in selects.", .counter .selectPartialErrorCount⟩,
   ⟨"select_blocking_duration_nanoseconds", "Select blocking duration.", .histogram .selectBlockingDuration⟩,
   ⟨"select_overhead_duration_nanoseconds", "Select overhead duration.", .histogram .selectOverheadDuration⟩,
   ⟨"select_duration_nanoseconds", "Overall select duration.", .histogram .selectDuration⟩,
   ⟨"select_send_all_promotion_count", "How many select requests were promoted to a send-all, in appropriate read strategies.", .counter .selectSendAllPromotionCount⟩,
   ⟨"select_retrieved_count", "How many key-score-member tuples have been retrieved from clusters by select calls.", .counter .selectRetrievedCount⟩,
   ⟨"select_returned_count", "How many key-score-member tuples have been returned to clients by select calls.", .counter .selectReturnedCount⟩,
   ⟨"select_repair_needed_count", "How many repairs have been detected and requested by select calls.", .counter .selectRepairNeededCount⟩,
   ⟨"delete_call_count", "How many delete calls have been made.", .counter .deleteCallCount⟩,
   ⟨"delete_record_count", "How many records have been deleted in delete calls.", .counter .deleteRecordCount⟩,
   ⟨"delete_call_duration_nanoseconds", "Delete duration, per-call.", .histogram .deleteCallDuration⟩,
   ⟨"delete_record_duration_nanoseconds", "Delete duration, per-record.", .histogram .deleteRecordDuration⟩,
   ⟨"delete_quorum_failure_count", "Delete quorum failure count.", .counter .deleteQuorumFailureCount⟩,
   ⟨"repair_call_count", "How many repair calls have been made.", .counter .repairCallCount⟩,
   ⟨"repair_request_count", "How many key-member tuples have been repaired.", .counter .repairRequestCount⟩,
   ⟨"repair_discarded_count", "How many repair calls have been discarded due to rate or buffer limits.", .counter .repairDiscardedCount⟩,
   ⟨"repair_write_success_count", "Repair write success count.", .counter .repairWriteSuccessCount⟩,
   ⟨"repair_write_failure_count", "Repair write failure count.", .counter .repairWriteFailureCount⟩,
   ⟨"walk_keys_count", "How many keys have been walked by the walker process.", .counter .walkKeysCount⟩]

/-- Run a sequence of `Register` calls for the given catalogue entries,
each under the name `p ++ suffix`, threading the registry and stopping at
the first fatal error, exactly as `New`'s sequential calls do. -/
def registerAll (p : String) : Registry → List CatEntry → Except String Registry
  | r, [] => Except.ok r
  | r, e :: rest => do
      let r2 ← Register r (p ++ e.suffix) e.help e.ref
      registerAll p r2 rest

/-- `New(prefix)` (prometheus.go lines 51–253): builds the struct literal
`newFacade` and performs the 28 `Register` calls of `catalogue` in source
order.  The Go function uses the process-wide default registry; the
embedding passes the registry state explicitly, and a fatal registration
error aborts construction. -/
def New (p : String) (r : Registry) : Except String (PrometheusInstrumentation × Registry) :=
  (registerAll p r catalogue).map (fun r2 => (newFacade, r2))

/-- One facade event method together with its argument: the 28 methods of
the `Instrumentation` interface (prometheus.go lines 260–398), in source
order.  Count arguments are Go `int`s (`Int`), duration arguments are
`time.Duration`s. -/
inductive FacadeCall
  | insertCall
  | insertRecordCount (n : Int)
  | insertCallDuration (d : Duration)
  | insertRecordDuration (d : Duration)
  | insertQuorumFailure
  | selectCall
  | selectKeys (n : Int)
  | selectSendTo (n : Int)
  | selectFirstResponseDuration (d : Duration)
  | selectPartialError
  | selectBlockingDuration (d : Duration)
  | selectOverheadDuration (d : Duration)
  | selectDuration (d : Duration)
  | selectSendAllPromotion
  | selectRetrieved (n : Int)
  | selectReturned (n : Int)
  | selectRepairNeeded (n : Int)
  | deleteCall
  | deleteRecordCount (n : Int)
  | deleteCallDuration (d : Duration)
  | deleteRecordDuration (d : Duration)
  | deleteQuorumFailure
  | repairCall
  | repairRequest (n : Int)
  | repairDiscarded (n : Int)
  | repairWriteSuccess (n : Int)
  | repairWriteFailure (n : Int)
  | walkKeys (n : Int)
deriving DecidableEq

/-- Dispatch a `FacadeCall` to the facade method it names. -/
def FacadeCall.apply : FacadeCall → PrometheusInstrumentation → PrometheusInstrumentation
  | .insertCall, i => i.InsertCall
  | .insertRecordCount n, i => i.InsertRecordCount n
  | .insertCallDuration d, i => i.InsertCallDuration d
  | .insertRecordDuration d, i => i.InsertRecordDuration d
  | .insertQuorumFailure, i => i.InsertQuorumFailure
  | .selectCall, i => i.SelectCall
  | .selectKeys n, i => i.SelectKeys n
  | .selectSendTo n, i => i.SelectSendTo n
  | .selectFirstResponseDuration d, i => i.SelectFirstResponseDuration d
  | .selectPartialError, i => i.SelectPartialError
  | .selectBlockingDuration d, i => i.SelectBlockingDuration d
  | .selectOverheadDuration d, i => i.SelectOverheadDuration d
  | .selectDuration d, i => i.SelectDuration d
  | .selectSendAllPromotion, i => i.SelectSendAllPromotion
  | .selectRetrieved n, i => i.SelectRetrieved n
  | .selectReturned n, i => i.SelectReturned n
  | .selectRepairNeeded n, i => i.SelectRepairNeeded n
  | .deleteCall, i => i.DeleteCall
  | .deleteRecordCount n, i => i.DeleteRecordCount n
  | .deleteCallDuration d, i => i.DeleteCallDuration d
  | .deleteRecordDuration d, i => i.DeleteRecordDuration d
  | .deleteQuorumFailure, i => i.DeleteQuorumFailure
  | .repairCall, i => i.RepairCall
  | .repairRequest n, i => i.RepairRequest n
  | .repairDiscarded n, i => i.RepairDiscarded n
  | .repairWriteSuccess n, i => i.RepairWriteSuccess n
  | .repairWriteFailure n, i => i.RepairWriteFailure n
  | .walkKeys n, i => i.WalkKeys n

/-- A call's arguments are non-negative: count arguments `n ≥ 0`, duration
arguments `d ≥ 0` nanoseconds; no-argument methods trivially qualify. -/
def FacadeCall.nonneg : FacadeCall → Prop
  | .insertRecordCount n => 0 ≤ n
  | .insertCallDuration d => 0 ≤ d.ns
  | .insertRecordDuration d => 0 ≤ d.ns
  | .selectKeys n => 0 ≤ n
  | .selectSendTo n => 0 ≤ n
  | .selectFirstResponseDuration d => 0 ≤ d.ns
  | .selectBlockingDuration d => 0 ≤ d.ns
  | .selectOverheadDuration d => 0 ≤ d.ns
  | .selectDuration d => 0 ≤ d.ns
  | .selectRetrieved n => 0 ≤ n
  | .selectReturned n => 0 ≤ n
  | .selectRepairNeeded n => 0 ≤ n
  | .deleteRecordCount n => 0 ≤ n
  | .deleteCallDuration d => 0 ≤ d.ns
  | .deleteRecordDuration d => 0 ≤ d.ns
  | .repairRequest n => 0 ≤ n
  | .repairDiscarded n => 0 ≤ n
  | .repairWriteSuccess n => 0 ≤ n
  | .repairWriteFailure n => 0 ≤ n
  | .walkKeys n => 0 ≤ n
  | _ => True

/-- Apply a sequence of facade calls in order, left to right. -/
def applyAll (cs : List FacadeCall) (i : PrometheusInstrumentation) : PrometheusInstrumentation :=
  cs.foldl (fun s c => c.apply s) i

/-- The 28 facade event methods, argument forgotten: one constructor per
method of the `Instrumentation` interface, in source order. -/
inductive EventMethod
  | InsertCall
  | InsertRecordCount
  | InsertCallDuration
  | InsertRecordDuration
  | InsertQuorumFailure
  | SelectCall
  | SelectKeys
  | SelectSendTo
  | SelectFirstResponseDuration
  | SelectPartialError
  | SelectBlockingDuration
  | SelectOverheadDuration
  | SelectDuration
  | SelectSendAllPromotion
  | SelectRetrieved
  | SelectReturned
  | SelectRepairNeeded
  | DeleteCall
  | DeleteRecordCount
  | DeleteCallDuration
  | DeleteRecordDuration
  | DeleteQuorumFailure
  | RepairCall
  | RepairRequest
  | RepairDiscarded
  | RepairWriteSuccess
  | RepairWriteFailure
  | WalkKeys
deriving DecidableEq, Fintype

/-- The method a call invokes. -/
def FacadeCall.method : FacadeCall → EventMethod
  | .insertCall => .InsertCall
  | .insertRecordCount _ => .InsertRecordCount
  | .insertCallDuration _ => .InsertCallDuration
  | .insertRecordDuration _ => .InsertRecordDuration
  | .insertQuorumFailure => .InsertQuorumFailure
  | .selectCall => .SelectCall
  | .selectKeys _ => .SelectKeys
  | .selectSendTo _ => .SelectSendTo
  | .selectFirstResponseDuration _ => .SelectFirstResponseDuration
  | .selectPartialError => .SelectPartialError
  | .selectBlockingDuration _ => .SelectBlockingDuration
  | .selectOverheadDuration _ => .SelectOverheadDuration
  | .selectDuration _ => .SelectDuration
  | .selectSendAllPromotion => .SelectSendAllPromotion
  | .selectRetrieved _ => .SelectRetrieved
  | .selectReturned _ => .SelectReturned
  | .selectRepairNeeded _ => .SelectRepairNeeded
  | .deleteCall => .DeleteCall
  | .deleteRecordCount _ => .DeleteRecordCount
  | .deleteCallDuration _ => .DeleteCallDuration
  | .deleteRecordDuration _ => .DeleteRecordDuration
  | .deleteQuorumFailure => .DeleteQuorumFailure
  | .repairCall => .RepairCall
  | .repairRequest _ => .RepairRequest
  | .repairDiscarded _ => .RepairDiscarded
  | .repairWriteSuccess _ => .RepairWriteSuccess
  | .repairWriteFailure _ => .RepairWriteFailure
  | .walkKeys _ => .WalkKeys

/-- The one metric field each event method writes — the binding fixed at
construction (prometheus.go lines 260–398, one field per method body). -/
def EventMethod.writes : EventMethod → MetricRef
  | .InsertCall => .counter .insertCallCount
  | .InsertRecordCount => .counter .insertRecordCount
  | .InsertCallDuration => .histogram .insertCallDuration
  | .InsertRecordDuration => .histogram .insertRecordDuration
  | .InsertQuorumFailure => .counter .insertQuorumFailureCount
  | .SelectCall => .counter .selectCallCount
  | .SelectKeys => .counter .selectKeysCount
  | .SelectSendTo => .counter .selectSendToCount
  | .SelectFirstResponseDuration => .histogram .selectFirstResponseDuration
  | .SelectPartialError => .counter .selectPartialErrorCount
  | .SelectBlockingDuration => .histogram .selectBlockingDuration
  | .SelectOverheadDuration => .histogram .selectOverheadDuration
  | .SelectDuration => .histogram .selectDuration
  | .SelectSendAllPromotion => .counter .selectSendAllPromotionCount
  | .SelectRetrieved => .counter .selectRetrievedCount
  | .SelectReturned => .counter .selectReturnedCount
  | .SelectRepairNeeded => .counter .selectRepairNeededCount
  | .DeleteCall => .counter .deleteCallCount
  | .DeleteRecordCount => .counter .deleteRecordCount
  | .DeleteCallDuration => .histogram .deleteCallDuration
  | .DeleteRecordDuration => .histogram .deleteRecordDuration
  | .DeleteQuorumFailure => .counter .deleteQuorumFailureCount
  | .RepairCall => .counter .repairCallCount
  | .RepairRequest => .counter .repairRequestCount
  | .RepairDiscarded => .counter .repairDiscardedCount
  | .RepairWriteSuccess => .counter .repairWriteSuccessCount
  | .RepairWriteFailure => .counter .repairWriteFailureCount
  | .WalkKeys => .counter .walkKeysCount

/-- Modelled from the spec: the text lines the exposition endpoint renders
for one registry entry (spec sections 4.3 and 6): a HELP line, a TYPE
line, then the value line(s) — `name value` for a counter, `name_sum` and
`name_count` lines for a histogram.  Per-bucket lines depend on the bucket
boundary scheme, which the spec leaves as an open implementation decision,
and are not modelled. -/
def renderEntry (i : PrometheusInstrumentation) (e : RegEntry) : List String :=
  match e.ref with
  | .counter f =>
      ["# HELP " ++ e.name ++ " " ++ e.help,
       "# TYPE " ++ e.name ++ " counter",
       e.name ++ " " ++ toString (readCounter i f).value]
  | .histogram f =>
      ["# HELP " ++ e.name ++ " " ++ e.help,
       "# TYPE " ++ e.name ++ " histogram",
       e.name ++ "_sum " ++ toString (readHistogram i f).samples.sum,
       e.name ++ "_count " ++ toString (readHistogram i f).samples.length]

/-- Modelled from the spec: `Render()` (spec section 4.3) — one block per
registered metric, in registration order, reflecting the current values. -/
def Render (r : Registry) (i : PrometheusInstrumentation) : List String :=
  r.entries.foldr (fun e acc => renderEntry i e ++ acc) []

/-- The 28 metric-name suffixes of the catalogue, in registration order. -/
def metricSuffixes : List String := catalogue.map CatEntry.suffix

theorem stringData_append (a b : String) : (a ++ b).data = a.data ++ b.data := by
  cases a; cases b; rfl

theorem stringExt {a b : String} (h : a.data = b.data) : a = b := by
  cases a; cases b; exact congrArg String.mk h

theorem string_append_right_cancel {p s t : String} (h : p ++ s = p ++ t) : s = t := by
  apply stringExt
  have hd : p.data ++ s.data = p.data ++ t.data := by
    rw [← stringData_append, ← stringData_append, h]
  exact List.append_cancel_left hd

theorem string_append_left_cancel {p q s : String} (h : p ++ s = q ++ s) : p = q := by
  apply stringExt
  have hd : p.data ++ s.data = q.data ++ s.data := by
    rw [← stringData_append, ← stringData_append, h]
  exact List.append_cancel_right hd

/-- Two prefixed names can only coincide if the prefixes coincide, provided
neither suffix is a strict suffix of the other. -/
theorem names_disjoint {p q s t : String} (hpq : p ≠ q)
    (h1 : t.data <:+ s.data → s = t) (h2 : s.data <:+ t.data → s = t) :
    p ++ s ≠ q ++ t := by
  intro h
  have hd : p.data ++ s.data = q.data ++ t.data := by
    rw [← stringData_append, ← stringData_append, h]
  rcases List.append_eq_append_iff.mp hd with ⟨u, hq, hs⟩ | ⟨u, hp, ht⟩
  · have hst : s = t := h1 ⟨u, hs.symm⟩
    subst hst
    have hu : u = [] := by
      have hlen := congrArg List.length hs
      simp at hlen
      exact hlen
    subst hu
    simp at hq
    exact hpq (stringExt hq.symm)
  · have hst : s = t := h2 ⟨u, ht.symm⟩
    subst hst
    have hu : u = [] := by
      have hlen := congrArg List.length ht
      simp at hlen
      exact hlen
    subst hu
    simp at hp
    exact hpq (stringExt hp)

set_option maxRecDepth 4000

/-- No catalogue suffix is a suffix of a different catalogue suffix. -/
theorem metricSuffixes_suffix_free :
    ∀ s ∈ metricSuffixes, ∀ t ∈ metricSuffixes,
      t.data.isSuffixOf s.data = true → s = t := by decide

/-- The 28 catalogue suffixes are pairwise distinct. -/
theorem metricSuffixes_nodup : metricSuffixes.Nodup := by decide

/-- Propositional form of suffix-freeness. -/
theorem metricSuffixes_suffix_free' :
    ∀ s ∈ metricSuffixes, ∀ t ∈ metricSuffixes, t.data <:+ s.data → s = t := by
  intro s hs t ht hsuf
  exact metricSuffixes_suffix_free s hs t ht (List.isSuffixOf_iff_suffix.mpr hsuf)

/-- If every name about to be registered is absent from the registry and
the new names are pairwise distinct, the registration sequence succeeds
and appends its entries in order. -/
theorem registerAll_ok (p : String) (cat : List CatEntry) :
    ∀ r : Registry,
      (∀ e ∈ cat, ∀ x ∈ r.entries, x.name ≠ p ++ e.suffix) →
      (cat.map (fun e => p ++ e.suffix)).Nodup →
      registerAll p r cat =
        Except.ok ⟨r.entries ++ cat.map (fun e => ⟨p ++ e.suffix, e.help, e.ref⟩)⟩ := by
  induction cat with
  | nil =>
      intro r _ _
      simp [registerAll]
  | cons e rest ih =>
      intro r hfresh hnodup
      have hguard : (r.entries.any fun x => x.name == p ++ e.suffix) = false := by
        rw [List.any_eq_false]
        intro x hx
        simpa using hfresh e (List.mem_cons_self e rest) x hx
      have hstep :
          registerAll p r (e :: rest)
            = registerAll p ⟨r.entries ++ [⟨p ++ e.suffix, e.help, e.ref⟩]⟩ rest := by
        simp [registerAll, Register, hguard, Bind.bind, Except.bind]
      rw [hstep, ih]
      · simp
      · intro e' he' x hx
        rcases List.mem_append.mp hx with hx | hx
        · exact hfresh e' (List.mem_cons_of_mem e he') x hx
        · simp at hx
          subst hx
          intro hcontra
          have hcontra' : p ++ e.suffix = p ++ e'.suffix := hcontra
          have hmem : p ++ e.suffix ∈ rest.map (fun e => p ++ e.suffix) :=
            hcontra' ▸ List.mem_map_of_mem (fun e => p ++ e.suffix) he'
          exact (List.nodup_cons.mp hnodup).1 hmem
      · exact (List.nodup_cons.mp hnodup).2

/-- `New` on a fresh registry registers exactly the 28 catalogue names in
order and returns the fresh facade. -/
theorem New_empty_eq (p : String) :
    New p Registry.empty
      = Except.ok (newFacade, ⟨catalogue.map (fun e => ⟨p ++ e.suffix, e.help, e.ref⟩)⟩) := by
  rw [New, registerAll_ok]
  · rfl
  · intro e _ x hx
    simp [Registry.empty] at hx
  · have h1 : (catalogue.map (fun e => p ++ e.suffix))
        = metricSuffixes.map (fun s => p ++ s) := by
      simp [metricSuffixes, List.map_map]
    rw [h1]
    exact metricSuffixes_nodup.map (fun a b hab => string_append_right_cancel hab)

/-- Claim C1: every facade event method performs exactly one update on
exactly the metric bound to it at construction: a no-argument method
increments its bound counter by 1, a count-argument method increments its
bound counter by `n`, and a duration-argument method records the
duration's nanosecond value in its bound histogram.  Each whole-structure
equation says the result differs from `i` in the one bound field only, so
no other metric is touched; in the embedding, as in the source, the bound
metric is reached by direct field access, never by a lookup by name. -/
theorem facade_methods_update_exactly_bound_metric
    (i : PrometheusInstrumentation) (n : Int) (d : Duration) :
    i.InsertCall = { i with insertCallCount := ⟨i.insertCallCount.value + 1⟩ } ∧
    i.InsertRecordCount n = { i with insertRecordCount := ⟨i.insertRecordCount.value + n⟩ } ∧
    i.InsertCallDuration d = { i with insertCallDuration := ⟨d.Nanoseconds :: i.insertCallDuration.samples⟩ } ∧
    i.InsertRecordDuration d = { i with insertRecordDuration := ⟨d.Nanoseconds :: i.insertRecordDuration.samples⟩ } ∧
    i.InsertQuorumFailure = { i with insertQuorumFailureCount := ⟨i.insertQuorumFailureCount.value + 1⟩ } ∧
    i.SelectCall = { i with selectCallCount := ⟨i.selectCallCount.value + 1⟩ } ∧
    i.SelectKeys n = { i with selectKeysCount := ⟨i.selectKeysCount.value + n⟩ } ∧
    i.SelectSendTo n = { i with selectSendToCount := ⟨i.selectSendToCount.value + n⟩ } ∧
    i.SelectFirstResponseDuration d = { i with selectFirstResponseDuration := ⟨d.Nanoseconds :: i.selectFirstResponseDuration.samples⟩ } ∧
    i.SelectPartialError = { i with selectPartialErrorCount := ⟨i.selectPartialErrorCount.value + 1⟩ } ∧
    i.SelectBlockingDuration d = { i with selectBlockingDuration := ⟨d.Nanoseconds :: i.selectBlockingDuration.samples⟩ } ∧
    i.SelectOverheadDuration d = { i with selectOverheadDuration := ⟨d.Nanoseconds :: i.selectOverheadDuration.samples⟩ } ∧
    i.SelectDuration d = { i with selectDuration := ⟨d.Nanoseconds :: i.selectDuration.samples⟩ } ∧
    i.SelectSendAllPromotion = { i with selectSendAllPromotionCount := ⟨i.selectSendAllPromotionCount.value + 1⟩ } ∧
    i.SelectRetrieved n = { i with selectRetrievedCount := ⟨i.selectRetrievedCount.value + n⟩ } ∧
    i.SelectReturned n = { i with selectReturnedCount := ⟨i.selectReturnedCount.value + n⟩ } ∧
    i.SelectRepairNeeded n = { i with selectRepairNeededCount := ⟨i.selectRepairNeededCount.value + n⟩ } ∧
    i.DeleteCall = { i with deleteCallCount := ⟨i.deleteCallCount.value + 1⟩ } ∧
    i.DeleteRecordCount n = { i with deleteRecordCount := ⟨i.deleteRecordCount.value + n⟩ } ∧
    i.DeleteCallDuration d = { i with deleteCallDuration := ⟨d.Nanoseconds :: i.deleteCallDuration.samples⟩ } ∧
    i.DeleteRecordDuration d = { i with deleteRecordDuration := ⟨d.Nanoseconds :: i.deleteRecordDuration.samples⟩ } ∧
    i.DeleteQuorumFailure = { i with deleteQuorumFailureCount := ⟨i.deleteQuorumFailureCount.value + 1⟩ } ∧
    i.RepairCall = { i with repairCallCount := ⟨i.repairCallCount.value + 1⟩ } ∧
    i.RepairRequest n = { i with repairRequestCount := ⟨i.repairRequestCount.value + n⟩ } ∧
    i.RepairDiscarded n = { i with repairDiscardedCount := ⟨i.repairDiscardedCount.value + n⟩ } ∧
    i.RepairWriteSuccess n = { i with repairWriteSuccessCount := ⟨i.repairWriteSuccessCount.value + n⟩ } ∧
    i.RepairWriteFailure n = { i with repairWriteFailureCount := ⟨i.repairWriteFailureCount.value + n⟩ } ∧
    i.WalkKeys n = { i with walkKeysCount := ⟨i.walkKeysCount.value + n⟩ } :=
  ⟨rfl, rfl, rfl, rfl, rfl, rfl, rfl, rfl, rfl, rfl, rfl, rfl, rfl, rfl,
   rfl, rfl, rfl, rfl, rfl, rfl, rfl, rfl, rfl, rfl, rfl, rfl, rfl, rfl⟩

/-- Claim C10: every count-argument method hands its argument through
exactly (the delta received by the bound counter equals `n`, for every
integer `n`, negative included), and every duration-argument method hands
through exactly the duration's nanosecond count; no validation, clamping
or rounding happens at the facade layer.  The embedding models the Go
`float64` conversions as exact, which they are for every value a 64-bit
nanosecond count or record count attains in the claims at issue. -/
theorem facade_args_passed_through_exactly
    (i : PrometheusInstrumentation) (n : Int) (d : Duration) :
    ((i.InsertRecordCount n).insertRecordCount).value = i.insertRecordCount.value + n ∧
    ((i.SelectKeys n).selectKeysCount).value = i.selectKeysCount.value + n ∧
    ((i.SelectSendTo n).selectSendToCount).value = i.selectSendToCount.value + n ∧
    ((i.SelectRetrieved n).selectRetrievedCount).value = i.selectRetrievedCount.value + n ∧
    ((i.SelectReturned n).selectReturnedCount).value = i.selectReturnedCount.value + n ∧
    ((i.SelectRepairNeeded n).selectRepairNeededCount).value = i.selectRepairNeededCount.value + n ∧
    ((i.DeleteRecordCount n).deleteRecordCount).value = i.deleteRecordCount.value + n ∧
    ((i.RepairRequest n).repairRequestCount).value = i.repairRequestCount.value + n ∧
    ((i.RepairDiscarded n).repairDiscardedCount).value = i.repairDiscardedCount.value + n ∧
    ((i.RepairWriteSuccess n).repairWriteSuccessCount).value = i.repairWriteSuccessCount.value + n ∧
    ((i.RepairWriteFailure n).repairWriteFailureCount).value = i.repairWriteFailureCount.value + n ∧
    ((i.WalkKeys n).walkKeysCount).value = i.walkKeysCount.value + n ∧
    ((i.InsertCallDuration d).insertCallDuration).samples = d.Nanoseconds :: i.insertCallDuration.samples ∧
    ((i.InsertRecordDuration d).insertRecordDuration).samples = d.Nanoseconds :: i.insertRecordDuration.samples ∧
    ((i.SelectFirstResponseDuration d).selectFirstResponseDuration).samples = d.Nanoseconds :: i.selectFirstResponseDuration.samples ∧
    ((i.SelectBlockingDuration d).selectBlockingDuration).samples = d.Nanoseconds :: i.selectBlockingDuration.samples ∧
    ((i.SelectOverheadDuration d).selectOverheadDuration).samples = d.Nanoseconds :: i.selectOverheadDuration.samples ∧
    ((i.SelectDuration d).selectDuration).samples = d.Nanoseconds :: i.selectDuration.samples ∧
    ((i.DeleteCallDuration d).deleteCallDuration).samples = d.Nanoseconds :: i.deleteCallDuration.samples ∧
    ((i.DeleteRecordDuration d).deleteRecordDuration).samples = d.Nanoseconds :: i.deleteRecordDuration.samples :=
  ⟨rfl, rfl, rfl, rfl, rfl, rfl, rfl, rfl, rfl, rfl,
   rfl, rfl, rfl, rfl, rfl, rfl, rfl, rfl, rfl, rfl⟩

/-- Claim C2, counterexample: the facade does not guard negative
arguments.  On a fresh facade, `InsertRecordCount(-5)` strictly decreases
the bound counter (0 becomes -5), refuting "the bound counter's value is
unchanged or increased by 0" for negative arguments. -/
theorem negative_count_not_clamped_cex :
    ((newFacade.InsertRecordCount (-5)).insertRecordCount).value
      < newFacade.insertRecordCount.value := by decide

/-- Claim C2 as amended: negative arguments are passed through unguarded —
a count-argument method called with `n < 0` strictly decreases its bound
counter, and a duration-argument method called with a negative duration
records the negative nanosecond value verbatim in its bound histogram;
no failure propagates to the caller (the methods are total). -/
theorem negative_args_recorded_verbatim
    (i : PrometheusInstrumentation) (n : Int) (d : Duration)
    (hn : n < 0) (hd : d.ns < 0) :
    ((i.InsertRecordCount n).insertRecordCount).value < i.insertRecordCount.value ∧
    (((i.InsertCallDuration d).insertCallDuration).samples
        = d.ns :: i.insertCallDuration.samples ∧ d.ns < 0) := by
  refine ⟨?_, rfl, hd⟩
  show i.insertRecordCount.value + n < i.insertRecordCount.value
  omega

/-- Witness for the amended C2 at `n = -5`, `d = -7ns` on a fresh facade. -/
theorem negative_args_recorded_verbatim_witness :
    ((newFacade.InsertRecordCount (-5)).insertRecordCount).value
        < newFacade.insertRecordCount.value ∧
    (((newFacade.InsertCallDuration ⟨-7⟩).insertCallDuration).samples
        = (-7 : Int) :: newFacade.insertCallDuration.samples ∧ (-7 : Int) < 0) :=
  negative_args_recorded_verbatim newFacade (-5) ⟨-7⟩ (by decide) (by decide)

/-- Claim C4: every counter starts at 0 at construction, and no facade
call with non-negative arguments ever decreases any counter: a single
step is non-decreasing on every counter field, hence any sequence of such
calls is monotonically non-decreasing, and nothing ever resets a counter. -/
theorem counters_start_at_zero_and_monotone :
    (∀ f : CounterField, (readCounter newFacade f).value = 0) ∧
    ∀ (i : PrometheusInstrumentation) (c : FacadeCall) (f : CounterField),
      c.nonneg → (readCounter i f).value ≤ (readCounter (c.apply i) f).value := by
  constructor
  · intro f
    cases f <;> rfl
  · intro i c f h
    cases c <;> simp only [FacadeCall.nonneg] at h <;> cases f <;>
      simp only [FacadeCall.apply, readCounter,
        PrometheusInstrumentation.InsertCall, PrometheusInstrumentation.InsertRecordCount,
        PrometheusInstrumentation.InsertCallDuration, PrometheusInstrumentation.InsertRecordDuration,
        PrometheusInstrumentation.InsertQuorumFailure, PrometheusInstrumentation.SelectCall,
        PrometheusInstrumentation.SelectKeys, PrometheusInstrumentation.SelectSendTo,
        PrometheusInstrumentation.SelectFirstResponseDuration, PrometheusInstrumentation.SelectPartialError,
        PrometheusInstrumentation.SelectBlockingDuration, PrometheusInstrumentation.SelectOverheadDuration,
        PrometheusInstrumentation.SelectDuration, PrometheusInstrumentation.SelectSendAllPromotion,
        PrometheusInstrumentation.SelectRetrieved, PrometheusInstrumentation.SelectReturned,
        PrometheusInstrumentation.SelectRepairNeeded, PrometheusInstrumentation.DeleteCall,
        PrometheusInstrumentation.DeleteRecordCount, PrometheusInstrumentation.DeleteCallDuration,
        PrometheusInstrumentation.DeleteRecordDuration, PrometheusInstrumentation.DeleteQuorumFailure,
        PrometheusInstrumentation.RepairCall, PrometheusInstrumentation.RepairRequest,
        PrometheusInstrumentation.RepairDiscarded, PrometheusInstrumentation.RepairWriteSuccess,
        PrometheusInstrumentation.RepairWriteFailure, PrometheusInstrumentation.WalkKeys,
        Counter.Increment, Counter.IncrementBy, Histogram.Add] <;>
      omega

/-- Witness for C4's monotonicity at a concrete step: `RepairRequest(3)`
on the fresh facade does not decrease `repairRequestCount`. -/
theorem counters_monotone_witness :
    (readCounter newFacade CounterField.repairRequestCount).value
      ≤ (readCounter ((FacadeCall.repairRequest 3).apply newFacade)
          CounterField.repairRequestCount).value :=
  counters_start_at_zero_and_monotone.2 newFacade (.repairRequest 3)
    .repairRequestCount (by decide : (0 : Int) ≤ 3)

/-- Claim C8: frame property.  For every facade event method and every
argument, every metric other than the one the method writes is left
unchanged (counters and histograms alike), and no two different event
methods write the same metric (`EventMethod.writes` is injective).  The
event-to-metric bindings themselves are the fixed function
`EventMethod.writes`, established at construction and independent of the
facade state, so they never change. -/
theorem facade_calls_frame_other_metrics :
    (∀ (i : PrometheusInstrumentation) (c : FacadeCall) (f : CounterField),
        MetricRef.counter f ≠ c.method.writes →
        readCounter (c.apply i) f = readCounter i f) ∧
    (∀ (i : PrometheusInstrumentation) (c : FacadeCall) (f : HistogramField),
        MetricRef.histogram f ≠ c.method.writes →
        readHistogram (c.apply i) f = readHistogram i f) ∧
    Function.Injective EventMethod.writes := by
  refine ⟨?_, ?_, ?_⟩
  · intro i c f h
    cases c <;> cases f <;> first | rfl | exact absurd rfl h
  · intro i c f h
    cases c <;> cases f <;> first | rfl | exact absurd rfl h
  · decide

/-- Witness for C8 at a concrete method and metric: `InsertCall` leaves
`selectCallCount` and `insertCallDuration` unchanged. -/
theorem facade_calls_frame_witness :
    readCounter (FacadeCall.insertCall.apply newFacade) CounterField.selectCallCount
        = readCounter newFacade CounterField.selectCallCount ∧
    readHistogram (FacadeCall.insertCall.apply newFacade) HistogramField.insertCallDuration
        = readHistogram newFacade HistogramField.insertCallDuration :=
  ⟨facade_calls_frame_other_metrics.1 newFacade .insertCall .selectCallCount (by decide),
   facade_calls_frame_other_metrics.2.1 newFacade .insertCall .insertCallDuration (by decide)⟩

/-- A sequence of `RepairRequest` calls adds the sum of the arguments to
`repairRequestCount`. -/
theorem applyAll_repairRequest_sum (ks : List Int) :
    ∀ i : PrometheusInstrumentation,
      (readCounter (applyAll (ks.map FacadeCall.repairRequest) i)
          CounterField.repairRequestCount).value
        = (readCounter i CounterField.repairRequestCount).value + ks.sum := by
  induction ks with
  | nil =>
      intro i
      simp [applyAll]
  | cons k rest ih =>
      intro i
      have h1 : applyAll ((k :: rest).map FacadeCall.repairRequest) i
          = applyAll (rest.map FacadeCall.repairRequest)
              ((FacadeCall.repairRequest k).apply i) := rfl
      rw [h1, ih]
      show i.repairRequestCount.value + k + rest.sum
        = i.repairRequestCount.value + (k :: rest).sum
      rw [List.sum_cons]
      ring

/-- A sequence of `InsertRecordCount` calls adds the sum of the arguments
to `insertRecordCount`. -/
theorem applyAll_insertRecordCount_sum (ks : List Int) :
    ∀ i : PrometheusInstrumentation,
      (readCounter (applyAll (ks.map FacadeCall.insertRecordCount) i)
          CounterField.insertRecordCount).value
        = (readCounter i CounterField.insertRecordCount).value + ks.sum := by
  induction ks with
  | nil =>
      intro i
      simp [applyAll]
  | cons k rest ih =>
      intro i
      have h1 : applyAll ((k :: rest).map FacadeCall.insertRecordCount) i
          = applyAll (rest.map FacadeCall.insertRecordCount)
              ((FacadeCall.insertRecordCount k).apply i) := rfl
      rw [h1, ih]
      show i.insertRecordCount.value + k + rest.sum
        = i.insertRecordCount.value + (k :: rest).sum
      rw [List.sum_cons]
      ring

/-- Claim C5: for any finite sequence of non-negative arguments fed to one
count-taking method (`RepairRequest` and `InsertRecordCount` shown) on a
freshly constructed facade, the bound counter ends at the sum of the
arguments, and any permutation of the call sequence ends at the same
value. -/
theorem count_call_sequences_sum_to_total (ks ks' : List Int)
    (hnn : ∀ k ∈ ks, 0 ≤ k) (hperm : ks.Perm ks') :
    (readCounter (applyAll (ks.map FacadeCall.repairRequest) newFacade)
        CounterField.repairRequestCount).value = ks.sum ∧
    (readCounter (applyAll (ks'.map FacadeCall.repairRequest) newFacade)
        CounterField.repairRequestCount).value = ks.sum ∧
    (readCounter (applyAll (ks.map FacadeCall.insertRecordCount) newFacade)
        CounterField.insertRecordCount).value = ks.sum ∧
    (readCounter (applyAll (ks'.map FacadeCall.insertRecordCount) newFacade)
        CounterField.insertRecordCount).value = ks.sum := by
  have hsum := hperm.sum_eq
  refine ⟨?_, ?_, ?_, ?_⟩
  · rw [applyAll_repairRequest_sum]
    show (0 : Int) + ks.sum = ks.sum
    ring
  · rw [applyAll_repairRequest_sum, ← hsum]
    show (0 : Int) + ks.sum = ks.sum
    ring
  · rw [applyAll_insertRecordCount_sum]
    show (0 : Int) + ks.sum = ks.sum
    ring
  · rw [applyAll_insertRecordCount_sum, ← hsum]
    show (0 : Int) + ks.sum = ks.sum
    ring

/-- Witness for C5 at `ks = [1, 2]`, `ks' = [2, 1]`: both orders leave the
counters at 3. -/
theorem count_call_sequences_sum_witness :
    (readCounter (applyAll (([1, 2] : List Int).map FacadeCall.repairRequest) newFacade)
        CounterField.repairRequestCount).value = ([1, 2] : List Int).sum ∧
    (readCounter (applyAll (([2, 1] : List Int).map FacadeCall.repairRequest) newFacade)
        CounterField.repairRequestCount).value = ([1, 2] : List Int).sum ∧
    (readCounter (applyAll (([1, 2] : List Int).map FacadeCall.insertRecordCount) newFacade)
        CounterField.insertRecordCount).value = ([1, 2] : List Int).sum ∧
    (readCounter (applyAll (([2, 1] : List Int).map FacadeCall.insertRecordCount) newFacade)
        CounterField.insertRecordCount).value = ([1, 2] : List Int).sum :=
  count_call_sequences_sum_to_total [1, 2] [2, 1] (by decide) (by decide)

/-- The 28 prefixed metric names are pairwise distinct for every `p`. -/
theorem catalogue_names_nodup (p : String) :
    (catalogue.map (fun e => p ++ e.suffix)).Nodup := by
  have h1 : (catalogue.map (fun e => p ++ e.suffix))
      = metricSuffixes.map (fun s => p ++ s) := by
    simp [metricSuffixes, List.map_map]
  rw [h1]
  exact metricSuffixes_nodup.map (fun a b hab => string_append_right_cancel hab)

/-- Claim C3: for every `p`, `New p` on an empty registry registers
exactly one metric per catalogue event — 28 in all, in source order —
under the name `p ++ suffix`, with the catalogue's exact suffixes, counter
events as counters and latency events as histograms; each registry entry
carries the reference to the very facade field that event's method
updates (`EventMethod.writes`, in method order). -/
theorem new_registers_full_catalogue (p : String) :
    New p Registry.empty
      = Except.ok (newFacade,
          ⟨catalogue.map (fun e => ⟨p ++ e.suffix, e.help, e.ref⟩)⟩) ∧
    catalogue.length = 28 ∧
    catalogue.map (fun e => (e.suffix, e.ref.kind)) =
      [("insert_call_count", MetricKind.counter),
       ("insert_record_count", MetricKind.counter),
       ("insert_call_duration_nanoseconds", MetricKind.histogram),
       ("insert_record_duration_nanoseconds", MetricKind.histogram),
       ("insert_quorum_failure_count", MetricKind.counter),
       ("select_call_count", MetricKind.counter),
       ("select_keys_count", MetricKind.counter),
       ("select_send_to_count", MetricKind.counter),
       ("select_first_response_duration_nanoseconds", MetricKind.histogram),
       ("select_partial_error_count", MetricKind.counter),
       ("select_blocking_duration_nanoseconds", MetricKind.histogram),
       ("select_overhead_duration_nanoseconds", MetricKind.histogram),
       ("select_duration_nanoseconds", MetricKind.histogram),
       ("select_send_all_promotion_count", MetricKind.counter),
       ("select_retrieved_count", MetricKind.counter),
       ("select_returned_count", MetricKind.counter),
       ("select_repair_needed_count", MetricKind.counter),
       ("delete_call_count", MetricKind.counter),
       ("delete_record_count", MetricKind.counter),
       ("delete_call_duration_nanoseconds", MetricKind.histogram),
       ("delete_record_duration_nanoseconds", MetricKind.histogram),
       ("delete_quorum_failure_count", MetricKind.counter),
       ("repair_call_count", MetricKind.counter),
       ("repair_request_count", MetricKind.counter),
       ("repair_discarded_count", MetricKind.counter),
       ("repair_write_success_count", MetricKind.counter),
       ("repair_write_failure_count", MetricKind.counter),
       ("walk_keys_count", MetricKind.counter)] ∧
    catalogue.map CatEntry.ref =
      ([.InsertCall, .InsertRecordCount, .InsertCallDuration, .InsertRecordDuration,
        .InsertQuorumFailure, .SelectCall, .SelectKeys, .SelectSendTo,
        .SelectFirstResponseDuration, .SelectPartialError, .SelectBlockingDuration,
        .SelectOverheadDuration, .SelectDuration, .SelectSendAllPromotion,
        .SelectRetrieved, .SelectReturned, .SelectRepairNeeded, .DeleteCall,
        .DeleteRecordCount, .DeleteCallDuration, .DeleteRecordDuration,
        .DeleteQuorumFailure, .RepairCall, .RepairRequest, .RepairDiscarded,
        .RepairWriteSuccess, .RepairWriteFailure, .WalkKeys] : List EventMethod).map
        EventMethod.writes :=
  ⟨New_empty_eq p, rfl, rfl, rfl⟩

/-- Claim C9: the 28 metric names `New p` registers are pairwise distinct
for every `p` (the catalogue suffixes are all different), so a single
`New` on a fresh registry never collides with itself and always
succeeds. -/
theorem fresh_construction_always_succeeds (p : String) :
    metricSuffixes.Nodup ∧
    (catalogue.map (fun e => p ++ e.suffix)).Nodup ∧
    ∃ reg : Registry, New p Registry.empty = Except.ok (newFacade, reg) :=
  ⟨metricSuffixes_nodup, catalogue_names_nodup p, ⟨_, New_empty_eq p⟩⟩

/-- If the first name of a registration sequence is already present, the
sequence fails fatally with that name. -/
theorem registerAll_head_collision (p : String) (r : Registry) (e : CatEntry)
    (rest : List CatEntry)
    (h : (r.entries.any fun x => x.name == p ++ e.suffix) = true) :
    registerAll p r (e :: rest) = Except.error (p ++ e.suffix) := by
  simp [registerAll, Register, h, Bind.bind, Except.bind]

/-- Claim C6: registering under an already-registered name is a fatal
configuration error at construction time.  Calling `New` a second time
with the same `p` against the registry the first call populated fails
fatally (on the very first name, `p ++ "insert_call_count"`), while a
second facade under a different `q` succeeds and leaves all 56 metrics
independently registered. -/
theorem duplicate_prefix_fatal_distinct_ok :
    (∀ (p : String) (i : PrometheusInstrumentation) (r : Registry),
        New p Registry.empty = Except.ok (i, r) →
        New p r = Except.error (p ++ "insert_call_count")) ∧
    (∀ (p q : String), p ≠ q →
        ∀ (i : PrometheusInstrumentation) (r : Registry),
          New p Registry.empty = Except.ok (i, r) →
          New q r = Except.ok (newFacade,
            ⟨r.entries ++ catalogue.map (fun e => ⟨q ++ e.suffix, e.help, e.ref⟩)⟩)) := by
  constructor
  · intro p i r hnew
    rw [New_empty_eq p] at hnew
    simp only [Except.ok.injEq, Prod.mk.injEq] at hnew
    obtain ⟨hi, hr⟩ := hnew
    subst hr
    rw [New]
    rw [show catalogue
        = (⟨"insert_call_count", "How many insert calls have been made.",
            .counter .insertCallCount⟩ : CatEntry) :: catalogue.tail from rfl]
    rw [registerAll_head_collision]
    · rfl
    · simp [catalogue]
  · intro p q hpq i r hnew
    rw [New_empty_eq p] at hnew
    simp only [Except.ok.injEq, Prod.mk.injEq] at hnew
    obtain ⟨hi, hr⟩ := hnew
    subst hr
    rw [New, registerAll_ok]
    · rfl
    · intro e he x hx
      simp only [List.mem_map] at hx
      obtain ⟨e', he', hx⟩ := hx
      subst hx
      show p ++ e'.suffix ≠ q ++ e.suffix
      apply names_disjoint hpq
      · intro hsuf
        exact metricSuffixes_suffix_free' e'.suffix
          (List.mem_map_of_mem CatEntry.suffix he') e.suffix
          (List.mem_map_of_mem CatEntry.suffix he) hsuf
      · intro hsuf
        exact (metricSuffixes_suffix_free' e.suffix
          (List.mem_map_of_mem CatEntry.suffix he) e'.suffix
          (List.mem_map_of_mem CatEntry.suffix he') hsuf).symm
    · exact catalogue_names_nodup q

/-- Witness for C6 at `p = "a_"`, `q = "b_"`: the second same-prefix
construction fails on `a_insert_call_count`; the distinct-prefix
construction succeeds and appends its 28 entries. -/
theorem duplicate_prefix_fatal_witness :
    New "a_" ⟨catalogue.map (fun e => ⟨"a_" ++ e.suffix, e.help, e.ref⟩)⟩
        = Except.error ("a_" ++ "insert_call_count") ∧
    New "b_" ⟨catalogue.map (fun e => ⟨"a_" ++ e.suffix, e.help, e.ref⟩)⟩
        = Except.ok (newFacade,
            ⟨(Registry.mk (catalogue.map (fun e => ⟨"a_" ++ e.suffix, e.help, e.ref⟩))).entries
              ++ catalogue.map (fun e => ⟨"b_" ++ e.suffix, e.help, e.ref⟩)⟩) :=
  ⟨duplicate_prefix_fatal_distinct_ok.1 "a_" newFacade _ (New_empty_eq "a_"),
   duplicate_prefix_fatal_distinct_ok.2 "a_" "b_" (by decide) newFacade _ (New_empty_eq "a_")⟩

/-- The facade state after `InsertCall()` three times and
`InsertRecordCount(5)` twice on a freshly constructed facade. -/
def testFacade : PrometheusInstrumentation :=
  ((((newFacade.InsertCall).InsertCall).InsertCall).InsertRecordCount 5).InsertRecordCount 5

/-- The registry `New "test_"` populates from empty. -/
def testRegistry : Registry :=
  ⟨catalogue.map (fun e => ⟨"test_" ++ e.suffix, e.help, e.ref⟩)⟩

/-- Claim C7: for the facade constructed by `New("test_")`, after three
`InsertCall()` calls and two `InsertRecordCount(5)` calls the rendered
registry state shows `test_insert_call_count` with value 3 and
`test_insert_record_count` with value 10. -/
theorem test_scenario_renders_3_and_10 :
    New "test_" Registry.empty = Except.ok (newFacade, testRegistry) ∧
    "test_insert_call_count 3" ∈ Render testRegistry testFacade ∧
    "test_insert_record_count 10" ∈ Render testRegistry testFacade :=
  ⟨New_empty_eq "test_", by decide, by decide⟩
